import Mathlib

/-!
Verification development for the irrigation intelligence service
(`server/services/intelligence.js`).

The service is a collection of pure arithmetic rule functions over sensor
readings.  JavaScript numbers are embedded as exact rationals `ℚ` (the claims
under study are about the exact arithmetic of the formulas, not IEEE-754
rounding error); a JavaScript value that may be `undefined`/`null` is embedded
as an `Option`.  Comparisons against `undefined` are `false` in JavaScript and
are embedded as such (`jsLt`, `jsGt`).  The one transcendental quantity, the
evapotranspiration estimate `calculateET` (it uses `Math.exp`), is embedded
separately over `ℝ`; the rule functions receive its value on a present
weather block as an explicit parameter over which every theorem quantifies,
while a reading without a weather block takes the source's `NaN` path
(`dailyETOf`), with `NaN` results modelled as `none`.
-/

namespace Irrig

/-- JavaScript `Math.round x` is `⌊x + 1/2⌋` (round half up, also for
negative arguments). -/
def jsRound (x : ℚ) : ℤ := ⌊x + 1/2⌋

/-- The source's `Math.round(x * 10) / 10` idiom: round to one decimal. -/
def round1 (x : ℚ) : ℚ := (jsRound (x * 10) : ℚ) / 10

/-- One entry of the crop table: moisture thresholds (`min`, `max`),
water volume per irrigation, and root depth. -/
structure CropConfig where
  min : ℚ
  max : ℚ
  waterPerIrrigation : ℚ
  rootDepth : ℚ
deriving DecidableEq, Repr

/-- The static `cropConfig` table of the service, keyed by crop name. -/
def cropConfig (name : String) : Option CropConfig :=
  match name with
  | "Rice" => some ⟨40, 70, 50, 20⟩
  | "Wheat" => some ⟨30, 50, 35, 30⟩
  | "Maize" => some ⟨35, 60, 40, 40⟩
  | "Tomato" => some ⟨35, 60, 30, 30⟩
  | "Cotton" => some ⟨40, 65, 45, 50⟩
  | "Sugarcane" => some ⟨45, 70, 55, 60⟩
  | "Tobacco" => some ⟨30, 55, 32, 35⟩
  | "Default" => some ⟨30, 60, 40, 30⟩
  | _ => none

/-- `this.cropConfig[cropType] || this.cropConfig['Default']`: an unknown key
falls back to the table's `Default` entry `{min:30,max:60,waterPerIrrigation:40,rootDepth:30}`. -/
def resolveConfig (cropType : String) : CropConfig :=
  (cropConfig cropType).getD ⟨30, 60, 40, 30⟩

/-- JavaScript string fallback `s || dflt` (the empty string is falsy). -/
def jsStrOr (s : Option String) (dflt : String) : String :=
  match s with
  | some v => if v = "" then dflt else v
  | none => dflt

/-- `currentData.cropType || crop?.name || 'Default'`. -/
def resolveCropType (readingCropType cropName : Option String) : String :=
  jsStrOr readingCropType (jsStrOr cropName "Default")

/-- The `soil` block of a reading.  A missing field is `none`. -/
structure Soil where
  moisture : Option ℚ
  temp : Option ℚ
  nitrogen : Option ℚ
  phosphorus : Option ℚ
  potassium : Option ℚ
  ph : Option ℚ
deriving DecidableEq, Repr

/-- The `weather.forecast` block (`nextRainHours` is `null` when no rain is
forecast). -/
structure Forecast where
  nextRainHours : Option ℚ
  nextRainChance : ℚ
deriving DecidableEq, Repr

/-- The `weather` block of a reading. -/
structure Weather where
  temperature : ℚ
  humidity : ℚ
  chanceOfRain : ℚ
  windSpeed : ℚ
  solarRadiation : ℚ
  forecast : Option Forecast
deriving DecidableEq, Repr

/-- A sensor reading.  `timestamp` is in milliseconds since the epoch. -/
structure Reading where
  soil : Option Soil
  weather : Option Weather
  cropType : Option String
  timestamp : ℚ
deriving DecidableEq, Repr

/-- JavaScript `a < b` where `a` may be `undefined` (then the comparison is
`false`). -/
def jsLt (a : Option ℚ) (b : ℚ) : Bool :=
  match a with
  | some x => decide (x < b)
  | none => false

/-- JavaScript `a > b` where `a` may be `undefined` (then the comparison is
`false`). -/
def jsGt (a : Option ℚ) (b : ℚ) : Bool :=
  match a with
  | some x => decide (b < x)
  | none => false

/-- The `action` field of a recommendation. -/
inductive Action
  | Pending | Stop | Delay | Irrigate | Monitor | Maintain
deriving DecidableEq, Repr

/-- The `priority` field of a recommendation. -/
inductive Priority
  | Critical | High | Medium | Low
deriving DecidableEq, Repr

/-- The `reason` strings of the source, abstracted to tags (the interpolated
numeric parts of the messages are dropped). -/
inductive Reason
  | collectingInitialData
  | waterlogging
  | rainDelay
  | belowThreshold
  | lowerOptimal
  | optimal
deriving DecidableEq, Repr

/-- A returned recommendation object.  `none` models a field that the returned
object omits, or whose value is JavaScript `null` or `NaN`. -/
structure Recommendation where
  action : Action
  reason : Reason
  amount : Option ℚ
  duration : Option ℤ
  recommendedTime : Option String
  hoursUntilNext : Option ℚ
  priority : Option Priority
  et : Option ℚ
deriving DecidableEq, Repr

/-- `getOptimalIrrigationTime`: keyed only to the wall-clock hour (the
`weather` argument of the source is read into an unused local). -/
def getOptimalIrrigationTime (hour : ℕ) : String :=
  if 5 ≤ hour ∧ hour < 7 then "06:00 AM"
  else if 18 ≤ hour ∧ hour < 20 then "07:00 PM"
  else if hour < 5 ∨ 20 ≤ hour then "06:00 AM (Tomorrow)"
  else "06:00 AM (Tomorrow)"

/-- `calculateNextIrrigationTime(currentMoisture, targetMoisture, dailyET)`.
When `hourlyET = 0` the source divides a positive deficit by `0`, giving
`Infinity`, and `Math.min(48, Infinity) = 48`; that case is made explicit
here. -/
def calculateNextIrrigationTime (currentMoisture targetMoisture dailyET : ℚ) : ℚ :=
  let deficit := targetMoisture - currentMoisture
  if deficit ≤ 0 then 24
  else
    let hourlyET := dailyET / 24
    if hourlyET = 0 then 48
    else max 1 (min 48 (deficit / (hourlyET / 10)))

/-- `getPriority(action, moisture, min, max)`.  The `max` argument is unused in
the source as well. -/
def getPriority (action : Action) (moisture : Option ℚ) (mn _mx : ℚ) : Priority :=
  if action = Action.Irrigate then
    if jsLt moisture (mn * 0.7) then Priority.Critical
    else if jsLt moisture mn then Priority.High
    else Priority.Medium
  else if action = Action.Stop then Priority.High
  else Priority.Low

/-- The rain-delay test
`rainInNextHours && rainInNextHours < 6 && rainChance > 50`
(a number is truthy iff it is nonzero). -/
def rainDelayCond (rainInNextHours : Option ℚ) (rainChance : ℚ) : Bool :=
  match rainInNextHours with
  | some h => decide (h ≠ 0) && decide (h < 6) && decide (50 < rainChance)
  | none => false

/-- `forecast?.nextRainHours` of `currentData.weather || {}`. -/
def forecastHoursOf (d : Reading) : Option ℚ :=
  match d.weather with
  | some w => (match w.forecast with
      | some f => f.nextRainHours
      | none => none)
  | none => none

/-- `weather.chanceOfRain || 0` of `currentData.weather || {}`. -/
def rainChanceOf (d : Reading) : ℚ :=
  match d.weather with
  | some w => w.chanceOfRain
  | none => 0

/-- The early return `{action:"Pending", reason:"Collecting initial data..."}`
(all other fields absent). -/
def pendingRecommendation : Recommendation :=
  { action := Action.Pending
    reason := Reason.collectingInitialData
    amount := none
    duration := none
    recommendedTime := none
    hoursUntilNext := none
    priority := none
    et := none }

/-- The over-irrigation early return
`{action:"Stop", reason, amount:0, duration:0, recommendedTime:"N/A", hoursUntilNext:24}`
(note: no `priority` and no `et` field). -/
def stopRecommendation : Recommendation :=
  { action := Action.Stop
    reason := Reason.waterlogging
    amount := some 0
    duration := some 0
    recommendedTime := some "N/A"
    hoursUntilNext := some 24
    priority := none
    et := none }

/-- The `amount` computed in the Irrigate branch:
`clamp(deficitVolume + 0.5 * dailyET, 0.5 * base, 1.5 * base)` with
`deficitVolume = (max - moisture) / 100 * rootDepth * 10`. -/
def irrigationAmount (config : CropConfig) (m dailyET : ℚ) : ℚ :=
  let deficitVolume := ((config.max - m) / 100) * config.rootDepth * 10
  let etCompensation := dailyET * 0.5
  max (config.waterPerIrrigation * 0.5)
    (min (config.waterPerIrrigation * 1.5) (deficitVolume + etCompensation))

/-- `dailyET = this.calculateET(currentData.weather || {}, cropType)` as seen
by `generateRecommendation`.  When the weather block is absent the
destructured weather fields are `undefined`, the vapor-pressure deficit is
`NaN`, and `Math.max(0, NaN) = NaN`: modelled `none`.  When the weather block
is present its fields are numbers in this model, and `calculateET` yields the
real value embedded below over `ℝ` (and proved nonnegative); it is abstracted
here as the parameter `etValue`, over which every theorem quantifies. -/
def dailyETOf (d : Reading) (etValue : ℚ) : Option ℚ :=
  match d.weather with
  | some _ => some etValue
  | none => none

/-- The branch logic of `generateRecommendation` after the Pending and Stop
early returns: yields `(action, reason, amount, duration, hoursUntilNext)`.
`moisture.getD 0` is only evaluated in branches guarded by a comparison that
forces `moisture = some m`.  A `none` `dailyET` is `NaN`: it propagates
through `deficitVolume + NaN`, `Math.min(x, NaN) = NaN`,
`Math.max(x, NaN) = NaN` and `Math.ceil(NaN) = NaN`, so the Irrigate branch
then carries `NaN` in its `amount` and `duration` slots (`none`); in the
`hoursUntilNext` slot `none` covers both an unset (`null`) value and a `NaN`
one — `NaN` is falsy and becomes `null` in the returned object exactly like
the unset case. -/
def recommendationCore (config : CropConfig) (moisture : Option ℚ)
    (forecastHours : Option ℚ) (rainChance : ℚ) (dailyET : Option ℚ) :
    Action × Reason × Option ℚ × Option ℤ × Option ℚ :=
  if jsLt moisture config.min then
    if rainDelayCond forecastHours rainChance then
      (Action.Delay, Reason.rainDelay, some 0, some 0,
        some (forecastHours.getD 0 + 2))
    else
      match dailyET with
      | some et =>
        let amount := irrigationAmount config (moisture.getD 0) et
        (Action.Irrigate, Reason.belowThreshold, some amount, some ⌈amount / 1.5⌉,
          some (calculateNextIrrigationTime (moisture.getD 0) config.max et))
      | none =>
        (Action.Irrigate, Reason.belowThreshold, none, none, none)
  else if jsLt moisture ((config.min + config.max) / 2) then
    (Action.Monitor, Reason.lowerOptimal, some 0, some 0,
      (match dailyET with
      | some et =>
        some (calculateNextIrrigationTime (moisture.getD 0) config.max et)
      | none => none))
  else
    (Action.Maintain, Reason.optimal, some 0, some 0, none)

/-- `generateRecommendation(currentData, crop, historicalData)`.
`hour` is the wall-clock hour the source reads through `new Date()`;
`cropName` is `crop?.name`; `historicalData` is unused by the source and
omitted; `etValue` abstracts `calculateET` on a present weather block (see
`dailyETOf`), so the rule logic stays in exact arithmetic — every theorem
quantifies over it — while a reading without a weather block takes the
source's `NaN` path: `amount`, `duration` and the `et` field come out `NaN`
(`none`) and `hoursUntilNext` comes out `null` in the Irrigate branch. -/
def generateRecommendation (hour : ℕ) (currentData : Option Reading)
    (cropName : Option String) (etValue : ℚ) : Recommendation :=
  match currentData with
  | none => pendingRecommendation
  | some d =>
    match d.soil with
    | none => pendingRecommendation
    | some soil =>
      let moisture := soil.moisture
      let config := resolveConfig (resolveCropType d.cropType cropName)
      let dailyET := dailyETOf d etValue
      if jsGt moisture (config.max * 1.1) then stopRecommendation
      else
        match recommendationCore config moisture (forecastHoursOf d)
            (rainChanceOf d) dailyET with
        | (action, reason, amount, duration, hoursUntilNext) =>
          { action := action
            reason := reason
            amount := (match amount with
              | some a => some (round1 a)
              | none => none)
            duration := duration
            recommendedTime := some (getOptimalIrrigationTime hour)
            hoursUntilNext := (match hoursUntilNext with
              | some h => if h = 0 then none else some ((⌈h⌉ : ℤ) : ℚ)
              | none => none)
            priority := some (getPriority action moisture config.min config.max)
            et := (match dailyET with
              | some et => some (round1 et)
              | none => none) }

/-- The `type` field of an anomaly. -/
inductive AnomalyType
  | Leak | DryStress | OverIrrigation | AbnormalPattern
deriving DecidableEq, Repr

/-- The `severity` field of an anomaly. -/
inductive Severity
  | Critical | High | Medium
deriving DecidableEq, Repr

/-- A detected anomaly.  The `message`, `confidence`, `field`, `timestamp` and
`status` fields of the pushed objects carry no branching logic (`status` is
always `"Active"`) and are omitted; the Abnormal Pattern confidence in
particular involves `Math.sqrt` and is not exact-arithmetic representable. -/
structure Anomaly where
  atype : AnomalyType
  severity : Severity
deriving DecidableEq, Repr

/-- `r.soil?.moisture`. -/
def moistureOf (r : Reading) : Option ℚ := r.soil.bind Soil.moisture

/-- `history.slice(-10)`: the last 10 records. -/
def takeLast10 (l : List Reading) : List Reading := l.drop (l.length - 10)

/-- Check 1 of `detectAnomalies` (possible leak): a moisture drop of more than
8 points between the two most recent history records within less than 2 hours,
exceeding twice the ET-predicted drop.  `dailyET` stands for
`this.calculateET(latest.weather || {}, cropType)`.  When either moisture is
`undefined` the comparisons are on `NaN` and are `false`. -/
def leakAnomalies (history : List Reading) (latest : Reading)
    (moisture : Option ℚ) (dailyET : ℚ) : List Anomaly :=
  if 2 ≤ history.length then
    match history.get? (history.length - 2) with
    | some previous =>
      (match moisture, moistureOf previous with
      | some m, some p =>
        let rateOfChange := m - p
        let timeDiff := (latest.timestamp - previous.timestamp) / (1000 * 60 * 60)
        if rateOfChange < -8 ∧ timeDiff < 2 then
          let weatherEvaporation := dailyET * (timeDiff / 24)
          let expectedDrop := weatherEvaporation / 10
          if |expectedDrop| * 2 < |rateOfChange| then
            [⟨AnomalyType.Leak, Severity.High⟩]
          else []
        else []
      | _, _ => [])
    | none => []
  else []

/-- `recent.filter(r => r.soil?.moisture < min).length`. -/
def lowMoistureCount (recent : List Reading) (mn : ℚ) : ℕ :=
  (recent.filter (fun r => jsLt (moistureOf r) mn)).length

/-- Check 2 of `detectAnomalies` (dry stress): current moisture below `0.8×min`
with at least 5 of the last 10 records below `min`. -/
def dryStressAnomalies (moisture : Option ℚ) (recent : List Reading) (mn : ℚ) :
    List Anomaly :=
  match moisture with
  | some m =>
    if m < mn * 0.8 ∧ 5 ≤ lowMoistureCount recent mn then
      [⟨AnomalyType.DryStress,
        if m < mn * 0.6 then Severity.Critical else Severity.High⟩]
    else []
  | none => []

/-- `recent.filter(r => r.soil?.moisture > max * 1.1).length`. -/
def highMoistureCount (recent : List Reading) (mx : ℚ) : ℕ :=
  (recent.filter (fun r => jsGt (moistureOf r) (mx * 1.1))).length

/-- Check 3 of `detectAnomalies` (over-irrigation): current moisture above
`1.15×max` with at least 3 of the last 10 records above `1.1×max`. -/
def overIrrigationAnomalies (moisture : Option ℚ) (recent : List Reading)
    (mx : ℚ) : List Anomaly :=
  match moisture with
  | some m =>
    if mx * 1.15 < m ∧ 3 ≤ highMoistureCount recent mx then
      [⟨AnomalyType.OverIrrigation,
        if mx * 1.3 < m then Severity.High else Severity.Medium⟩]
    else []
  | none => []

/-- Check 4 of `detectAnomalies` (abnormal pattern).  The source compares
`Math.sqrt(variance) > 15`; since the variance is a mean of squares (hence
nonnegative, and `0` on the empty list where the source would get `NaN` and
also not trigger), this is exactly `variance > 225`. -/
def abnormalPatternAnomalies (recent : List Reading) : List Anomaly :=
  if 5 ≤ recent.length then
    let moistureValues := recent.filterMap moistureOf
    let mean := moistureValues.sum / (moistureValues.length : ℚ)
    let variance :=
      (moistureValues.map (fun v => (v - mean) ^ 2)).sum / (moistureValues.length : ℚ)
    if 225 < variance then [⟨AnomalyType.AbnormalPattern, Severity.Medium⟩] else []
  else []

/-- `latest = currentData || history[history.length - 1]`. -/
def latestOf (history : List Reading) (currentData : Option Reading) :
    Option Reading :=
  currentData.orElse (fun _ => history.getLast?)

/-- `detectAnomalies(history, currentData, crop)`.  `cropName` is `crop?.name`;
`dailyET` stands for the `calculateET` value used inside the leak check. -/
def detectAnomalies (history : List Reading) (currentData : Option Reading)
    (cropName : Option String) (dailyET : ℚ) : List Anomaly :=
  if history.length < 5 then []
  else
    match latestOf history currentData with
    | none => []
    | some latest =>
      let recent := takeLast10 history
      match latest.soil with
      | none => []
      | some soil =>
        let moisture := soil.moisture
        let config := resolveConfig (resolveCropType latest.cropType cropName)
        leakAnomalies history latest moisture dailyET
          ++ dryStressAnomalies moisture recent config.min
          ++ overIrrigationAnomalies moisture recent config.max
          ++ abnormalPatternAnomalies recent

/-- The water-savings result.  The `< 7` early return carries only the first
four fields; `irrigationEvents` and `daysAnalyzed` are absent there. -/
structure WaterSavings where
  saved : ℚ
  percentage : ℚ
  baseline : ℚ
  optimized : ℚ
  irrigationEvents : Option ℕ
  daysAnalyzed : Option ℤ
deriving DecidableEq, Repr

/-- The `{saved:0, percentage:0, baseline:0, optimized:0}` early return. -/
def zeroSavings : WaterSavings := ⟨0, 0, 0, 0, none, none⟩

/-- The irrigation-event count of `calculateWaterSavings`: consecutive pairs
(`pr.1` the earlier-indexed record, `pr.2` the next one) where
`record.soil?.moisture < prev.soil?.moisture * 0.95` (false when either is
`undefined`). -/
def irrigationEventCount (last7Days : List Reading) : ℕ :=
  ((last7Days.zip (last7Days.drop 1)).filter
    (fun pr =>
      match moistureOf pr.2, moistureOf pr.1 with
      | some m, some p => decide (m < p * 0.95)
      | _, _ => false)).length

/-- `currentRecommendation?.amount || 35` (an absent recommendation, an absent
amount, and a zero amount all fall back to 35). -/
def avgIrrigationAmountOf (currentRecommendation : Option Recommendation) : ℚ :=
  match currentRecommendation with
  | some r =>
    (match r.amount with
    | some a => if a = 0 then 35 else a
    | none => 35)
  | none => 35

/-- `calculateWaterSavings(historicalData, currentRecommendation)`.  The
source indexes `historicalData[0]` (taken to be the newest record) and
`historicalData[historicalData.length - 1]`. -/
def calculateWaterSavings (historicalData : List Reading)
    (currentRecommendation : Option Recommendation) : WaterSavings :=
  if historicalData.length < 7 then zeroSavings
  else
    match historicalData, historicalData.getLast? with
    | first :: _, some last =>
      let days : ℤ := ⌈(first.timestamp - last.timestamp) / (1000 * 60 * 60 * 24)⌉
      let baselineAmount : ℚ := 40 * (days : ℚ)
      let last7Days := historicalData.take (min 168 historicalData.length)
      let irrigationEvents := irrigationEventCount last7Days
      let optimizedAmount :=
        (irrigationEvents : ℚ) * avgIrrigationAmountOf currentRecommendation
      let saved := max 0 (baselineAmount - optimizedAmount)
      let percentage := if 0 < baselineAmount then saved / baselineAmount * 100 else 0
      { saved := round1 saved
        percentage := round1 percentage
        baseline := round1 baselineAmount
        optimized := round1 optimizedAmount
        irrigationEvents := some irrigationEvents
        daysAnalyzed := some (min 7 days) }
    | _, _ => zeroSavings

/-- `predictYieldHealth(data, crop)`.  The result is `none` exactly when the
source computes `NaN`: a present soil block whose `moisture` field is absent
makes `moistureScore = Math.max(0.3, NaN) = NaN`, which propagates to the
returned value.  All other paths return a number (`some`). -/
def predictYieldHealth (data : Option Reading) (cropName : Option String) :
    Option ℚ :=
  match data with
  | none => some 0
  | some d =>
    match d.soil, d.weather with
    | some soil, some weather =>
      let nScore := max 0 (min 1 (1 - |80 - soil.nitrogen.getD 0| / 80))
      let pScore := max 0 (min 1 (1 - |45 - soil.phosphorus.getD 0| / 45))
      let kScore := max 0 (min 1 (1 - |50 - soil.potassium.getD 0| / 50))
      let phScore : ℚ :=
        match soil.ph with
        | some p => if p = 0 then 0.7 else max 0 (min 1 (1 - |6.5 - p| / 3))
        | none => 0.7
      let config := resolveConfig (resolveCropType d.cropType cropName)
      let tempScore : ℚ :=
        if weather.temperature = 0 then 0.7
        else max 0 (min 1 (1 - |25 - weather.temperature| / 15))
      let sunScore : ℚ :=
        if weather.solarRadiation = 0 then 0.6
        else min 1 (weather.solarRadiation / 600)
      match soil.moisture with
      | none => none
      | some m =>
        let moistureScore : ℚ :=
          if config.min ≤ m ∧ m ≤ config.max then 1
          else if m < config.min then max 0.2 (m / config.min)
          else max 0.3 (1 - (m - config.max) / (config.max * 0.5))
        let finalScore :=
          (nScore * 0.15 + pScore * 0.1 + kScore * 0.1 + phScore * 0.1 +
            moistureScore * 0.35 + tempScore * 0.1 + sunScore * 0.1) * 100
        some ((max 0 (min 100 (jsRound finalScore)) : ℤ) : ℚ)
    | _, _ => some 0

/-- `calculateET(weather, cropType)` over `ℝ` (the source uses `Math.exp`).
`cropConfig[cropType]?.kc` is `undefined` for every crop (no table entry has a
`kc` field), so `cropCoefficient = undefined || 0.8 = 0.8` always. -/
noncomputable def calculateET (temperature humidity windSpeed solarRadiation : ℝ)
    (_cropType : String) : ℝ :=
  let cropCoefficient : ℝ := 0.8
  let vaporPressureDeficit :=
    (1 - humidity / 100) * 0.611 * Real.exp (17.27 * temperature / (237.3 + temperature))
  let et0 := (0.408 * solarRadiation * vaporPressureDeficit
      + 0.063 * windSpeed * vaporPressureDeficit) / (temperature + 237.3)
  let etc := et0 * cropCoefficient
  max 0 (etc * 24)

/-- A weather block with no rain forecast (`nextRainHours = null`). -/
def noRainWeather : Weather :=
  { temperature := 28, humidity := 100, chanceOfRain := 0, windSpeed := 8,
    solarRadiation := 500, forecast := some ⟨none, 0⟩ }

/-- A soil block carrying only a (possibly absent) moisture value. -/
def mkSoil (m : Option ℚ) : Soil := ⟨m, none, none, none, none, none⟩

/-- A reading with the given moisture, crop type and timestamp, under
`noRainWeather`. -/
def mkReading (m : Option ℚ) (ct : Option String) (ts : ℚ) : Reading :=
  ⟨some (mkSoil m), some noRainWeather, ct, ts⟩

/-! Facts about the crop table. -/

/-- Every resolvable crop profile has a positive `min` not exceeding `max`. -/
theorem resolveConfig_min_pos_le_max (ct : String) :
    0 < (resolveConfig ct).min ∧ (resolveConfig ct).min ≤ (resolveConfig ct).max := by
  unfold resolveConfig cropConfig
  split <;> decide

/-- Every resolvable crop profile has a positive integer
`waterPerIrrigation`. -/
theorem resolveConfig_water_int (ct : String) :
    ∃ n : ℤ, 0 < n ∧ (resolveConfig ct).waterPerIrrigation = (n : ℚ) := by
  unfold resolveConfig cropConfig
  split
  · exact ⟨50, by norm_num, by norm_num⟩
  · exact ⟨35, by norm_num, by norm_num⟩
  · exact ⟨40, by norm_num, by norm_num⟩
  · exact ⟨30, by norm_num, by norm_num⟩
  · exact ⟨45, by norm_num, by norm_num⟩
  · exact ⟨55, by norm_num, by norm_num⟩
  · exact ⟨32, by norm_num, by norm_num⟩
  · exact ⟨40, by norm_num, by norm_num⟩
  · exact ⟨40, by norm_num, by norm_num⟩

/-! Facts about the one-decimal rounding of the source. -/

/-- Rounding to one decimal cannot go below a one-decimal lower bound. -/
theorem round1_ge (x : ℚ) (n : ℤ) (h : (n : ℚ) / 10 ≤ x) :
    (n : ℚ) / 10 ≤ round1 x := by
  unfold round1 jsRound
  have h1 : (n : ℚ) ≤ x * 10 + 1 / 2 := by linarith
  have h2 : n ≤ ⌊x * 10 + 1 / 2⌋ := Int.le_floor.mpr h1
  have h3 : (n : ℚ) ≤ (⌊x * 10 + 1 / 2⌋ : ℚ) := by exact_mod_cast h2
  linarith

/-- Rounding to one decimal cannot go above a one-decimal upper bound. -/
theorem round1_le (x : ℚ) (n : ℤ) (h : x ≤ (n : ℚ) / 10) :
    round1 x ≤ (n : ℚ) / 10 := by
  unfold round1 jsRound
  have h1 : x * 10 + 1 / 2 < (n : ℚ) + 1 := by linarith
  have h2 : ⌊x * 10 + 1 / 2⌋ < n + 1 := by
    have := Int.floor_lt.mpr (by exact_mod_cast h1)
    exact this
  have h3 : ⌊x * 10 + 1 / 2⌋ ≤ n := by omega
  have h4 : ((⌊x * 10 + 1 / 2⌋ : ℤ) : ℚ) ≤ (n : ℚ) := by exact_mod_cast h3
  linarith

/-- Rounding to one decimal fixes integers. -/
theorem round1_intCast (n : ℤ) : round1 (n : ℚ) = (n : ℚ) := by
  unfold round1 jsRound
  have h : ⌊(n : ℚ) * 10 + 1 / 2⌋ = 10 * n := by
    rw [Int.floor_eq_iff]
    constructor
    · push_cast; linarith
    · push_cast; linarith
  rw [h]
  push_cast
  ring

/-- `calculateNextIrrigationTime` stays in `[1, 48]` whenever the deficit is
positive and the ET estimate is nonnegative. -/
theorem calculateNextIrrigationTime_mem (m mx et : ℚ)
    (hd : 0 < mx - m) (_het : 0 ≤ et) :
    1 ≤ calculateNextIrrigationTime m mx et ∧
      calculateNextIrrigationTime m mx et ≤ 48 := by
  simp only [calculateNextIrrigationTime]
  rw [if_neg (by linarith)]
  by_cases h0 : et / 24 = 0
  · rw [if_pos h0]; norm_num
  · rw [if_neg h0]
    exact ⟨le_max_left _ _,
      max_le (by norm_num) ((min_le_left _ _))⟩

/-! Branch lemmas for `generateRecommendation`. -/

/-- When the reading and its soil block are present and the moisture is not
above the `1.1×max` threshold, `generateRecommendation` returns through its
final construction. -/
theorem generateRecommendation_final (hour : ℕ) (d : Reading) (soil : Soil)
    (cropName : Option String) (etValue : ℚ) (hsoil : d.soil = some soil)
    (hnot : jsGt soil.moisture
      ((resolveConfig (resolveCropType d.cropType cropName)).max * 1.1) = false) :
    generateRecommendation hour (some d) cropName etValue =
      (match recommendationCore (resolveConfig (resolveCropType d.cropType cropName))
          soil.moisture (forecastHoursOf d) (rainChanceOf d) (dailyETOf d etValue) with
      | (action, reason, amount, duration, hoursUntilNext) =>
        { action := action
          reason := reason
          amount := (match amount with
            | some a => some (round1 a)
            | none => none)
          duration := duration
          recommendedTime := some (getOptimalIrrigationTime hour)
          hoursUntilNext := (match hoursUntilNext with
            | some h => if h = 0 then none else some ((⌈h⌉ : ℤ) : ℚ)
            | none => none)
          priority := some (getPriority action soil.moisture
            (resolveConfig (resolveCropType d.cropType cropName)).min
            (resolveConfig (resolveCropType d.cropType cropName)).max)
          et := (match dailyETOf d etValue with
            | some et => some (round1 et)
            | none => none) }) := by
  simp only [generateRecommendation, hsoil, hnot, Bool.false_eq_true, if_false]

/-- In the Irrigate branch with a numeric ET estimate the core yields the
clamped amount, its ceiling duration, and the projected next-irrigation
time. -/
theorem recommendationCore_irrigate (config : CropConfig) (m : ℚ)
    (forecastHours : Option ℚ) (rainChance dailyET : ℚ)
    (hb : m < config.min) (hr : rainDelayCond forecastHours rainChance = false) :
    recommendationCore config (some m) forecastHours rainChance (some dailyET) =
      (Action.Irrigate, Reason.belowThreshold,
        some (irrigationAmount config m dailyET),
        some ⌈irrigationAmount config m dailyET / 1.5⌉,
        some (calculateNextIrrigationTime m config.max dailyET)) := by
  simp [recommendationCore, jsLt, hb, hr]

/-- In the Irrigate branch with a `NaN` ET estimate (absent weather block)
every ET-derived slot is `NaN`/`null`. -/
theorem recommendationCore_irrigate_nan (config : CropConfig) (m : ℚ)
    (forecastHours : Option ℚ) (rainChance : ℚ)
    (hb : m < config.min) (hr : rainDelayCond forecastHours rainChance = false) :
    recommendationCore config (some m) forecastHours rainChance none =
      (Action.Irrigate, Reason.belowThreshold, none, none, none) := by
  simp [recommendationCore, jsLt, hb, hr]

/-- In the Delay branch the core postpones by `rainHours + 2`. -/
theorem recommendationCore_delay (config : CropConfig) (m : ℚ)
    (forecastHours : Option ℚ) (rainChance : ℚ) (dailyET : Option ℚ)
    (hb : m < config.min) (hr : rainDelayCond forecastHours rainChance = true) :
    recommendationCore config (some m) forecastHours rainChance dailyET =
      (Action.Delay, Reason.rainDelay, some 0, some 0,
        some (forecastHours.getD 0 + 2)) := by
  simp [recommendationCore, jsLt, hb, hr]

/-- Outside the below-threshold band the core yields Monitor or Maintain with
a zero amount. -/
theorem recommendationCore_not_below (config : CropConfig) (moisture : Option ℚ)
    (forecastHours : Option ℚ) (rainChance : ℚ) (dailyET : Option ℚ)
    (hb : jsLt moisture config.min = false) :
    recommendationCore config moisture forecastHours rainChance dailyET =
      (if jsLt moisture ((config.min + config.max) / 2) then
        (Action.Monitor, Reason.lowerOptimal, some 0, some 0,
          (match dailyET with
          | some et =>
            some (calculateNextIrrigationTime (moisture.getD 0) config.max et)
          | none => none))
      else (Action.Maintain, Reason.optimal, some 0, some 0, none)) := by
  simp only [recommendationCore, hb, Bool.false_eq_true, if_false]

/-- C1: for every reading whose soil moisture exceeds 1.1 times the crop
profile's `max`, `generateRecommendation` returns `action = Stop`,
`amount = 0` and `hoursUntilNext = 24`. -/
theorem claim1_stop_on_over_irrigation (hour : ℕ) (d : Reading) (soil : Soil)
    (m : ℚ) (cropName : Option String) (dailyET : ℚ)
    (hsoil : d.soil = some soil) (hm : soil.moisture = some m)
    (habove : (resolveConfig (resolveCropType d.cropType cropName)).max * 1.1 < m) :
    (generateRecommendation hour (some d) cropName dailyET).action = Action.Stop ∧
      (generateRecommendation hour (some d) cropName dailyET).amount = some 0 ∧
      (generateRecommendation hour (some d) cropName dailyET).hoursUntilNext =
        some 24 := by
  have hcond : jsGt soil.moisture
      ((resolveConfig (resolveCropType d.cropType cropName)).max * 1.1) = true := by
    simp only [hm, jsGt, decide_eq_true_eq]
    exact habove
  simp only [generateRecommendation, hsoil, hcond, if_true]
  exact ⟨rfl, rfl, rfl⟩

/-- Evaluation rule for `round1` at a concrete rational. -/
theorem round1_eq (x : ℚ) (n : ℤ) (h1 : (n : ℚ) ≤ x * 10 + 1 / 2)
    (h2 : x * 10 + 1 / 2 < (n : ℚ) + 1) : round1 x = (n : ℚ) / 10 := by
  unfold round1 jsRound
  rw [show ⌊x * 10 + 1 / 2⌋ = n from Int.floor_eq_iff.mpr ⟨h1, by exact_mod_cast h2⟩]

/-- Evaluation rule for `Int.ceil` at a concrete rational. -/
theorem intCeil_eq (x : ℚ) (n : ℤ) (h1 : (n : ℚ) - 1 < x) (h2 : x ≤ (n : ℚ)) :
    (⌈x⌉ : ℤ) = n :=
  Int.ceil_eq_iff.mpr ⟨by exact_mod_cast h1, h2⟩

/-- The core never yields the Pending action. -/
theorem recommendationCore_action_ne_pending (config : CropConfig)
    (moisture forecastHours : Option ℚ) (rainChance : ℚ) (dailyET : Option ℚ) :
    (recommendationCore config moisture forecastHours rainChance dailyET).1 ≠
      Action.Pending := by
  simp only [recommendationCore]
  rcases dailyET with _ | et <;> split_ifs <;> simp

/-- Witness for C1: moisture 60 on Wheat (`max = 50`, threshold 55). -/
theorem claim1_stop_on_over_irrigation_witness :
    (generateRecommendation 10 (some (mkReading (some 60) (some "Wheat") 0))
      none 0).action = Action.Stop ∧
    (generateRecommendation 10 (some (mkReading (some 60) (some "Wheat") 0))
      none 0).amount = some 0 ∧
    (generateRecommendation 10 (some (mkReading (some 60) (some "Wheat") 0))
      none 0).hoursUntilNext = some 24 :=
  claim1_stop_on_over_irrigation 10 (mkReading (some 60) (some "Wheat") 0)
    (mkSoil (some 60)) 60 none 0 rfl rfl
    (by
      have h : resolveConfig (resolveCropType
          (mkReading (some 60) (some "Wheat") 0).cropType none) = ⟨30, 50, 35, 30⟩ := rfl
      rw [h]
      norm_num)

/-- C4 counterexample: a reading whose soil block is present but whose
`moisture` field is absent is not answered with Pending — the `undefined`
moisture makes every threshold comparison false and the call falls through to
Maintain. -/
theorem claim4_counterexample_missing_moisture :
    (generateRecommendation 10 (some (mkReading none (some "Wheat") 0)) none 0).action
        = Action.Maintain ∧
      (generateRecommendation 10 (some (mkReading none (some "Wheat") 0)) none 0).action
        ≠ Action.Pending := by
  have h1 : (generateRecommendation 10 (some (mkReading none (some "Wheat") 0))
      none 0).action = Action.Maintain := rfl
  rw [h1]
  exact ⟨rfl, by decide⟩

/-- C4 (amended): `generateRecommendation` returns the Pending object exactly
when the reading itself or its soil block is absent; a present soil block with
an absent `moisture` field instead falls through to Maintain. -/
theorem claim4_pending_only_when_soil_absent :
    (∀ (hour : ℕ) (cropName : Option String) (et : ℚ),
      generateRecommendation hour none cropName et = pendingRecommendation) ∧
    (∀ (hour : ℕ) (d : Reading) (cropName : Option String) (et : ℚ), d.soil = none →
      generateRecommendation hour (some d) cropName et = pendingRecommendation) ∧
    (∀ (hour : ℕ) (d : Reading) (soil : Soil) (cropName : Option String) (et : ℚ),
      d.soil = some soil →
      (generateRecommendation hour (some d) cropName et).action ≠ Action.Pending) ∧
    (∀ (hour : ℕ) (d : Reading) (soil : Soil) (cropName : Option String) (et : ℚ),
      d.soil = some soil → soil.moisture = none →
      (generateRecommendation hour (some d) cropName et).action = Action.Maintain) := by
  refine ⟨fun _ _ _ => rfl, ?_, ?_, ?_⟩
  · intro hour d cropName et hs
    simp [generateRecommendation, hs]
  · intro hour d soil cropName et hs
    simp only [generateRecommendation, hs]
    by_cases hg : jsGt soil.moisture
        ((resolveConfig (resolveCropType d.cropType cropName)).max * 1.1) = true
    · simp [hg, stopRecommendation]
    · simp only [Bool.not_eq_true] at hg
      simp only [hg, Bool.false_eq_true, if_false]
      rcases hcore : recommendationCore (resolveConfig (resolveCropType d.cropType cropName))
          soil.moisture (forecastHoursOf d) (rainChanceOf d) (dailyETOf d et)
        with ⟨a, r, am, du, hn⟩
      have := recommendationCore_action_ne_pending
        (resolveConfig (resolveCropType d.cropType cropName)) soil.moisture
        (forecastHoursOf d) (rainChanceOf d) (dailyETOf d et)
      rw [hcore] at this
      simpa using this
  · intro hour d soil cropName et hs hm
    simp [generateRecommendation, hs, hm, jsGt, recommendationCore, jsLt,
      getPriority, dailyETOf]

/-- Witness for C4: each conjunct applied at a concrete input. -/
theorem claim4_pending_only_when_soil_absent_witness :
    generateRecommendation 10 none none 0 = pendingRecommendation ∧
    generateRecommendation 10 (some ⟨none, some noRainWeather, some "Wheat", 0⟩)
      none 0 = pendingRecommendation ∧
    (generateRecommendation 10 (some (mkReading (some 40) (some "Wheat") 0))
      none 0).action ≠ Action.Pending ∧
    (generateRecommendation 10 (some (mkReading none (some "Wheat") 0))
      none 0).action = Action.Maintain :=
  ⟨claim4_pending_only_when_soil_absent.1 10 none 0,
    claim4_pending_only_when_soil_absent.2.1 10 _ none 0 rfl,
    claim4_pending_only_when_soil_absent.2.2.1 10 _ (mkSoil (some 40)) none 0 rfl,
    claim4_pending_only_when_soil_absent.2.2.2 10 _ (mkSoil none) none 0 rfl rfl⟩

/-- C2 (amended): for a reading carrying a weather block, below the minimum
with no qualifying rain forecast the action is Irrigate, the returned
`amount` is the clamp value `irrigationAmount` rounded to one decimal and
stays within `[0.5×waterPerIrrigation, 1.5×waterPerIrrigation]`, the duration
is `⌈amount/1.5⌉` minutes (from the unrounded amount), and `hoursUntilNext`
is an integer in `[1, 48]`; for a reading without a weather block the same
branch is taken with `dailyET = NaN`, so the returned `amount`, `duration`
and `et` are `NaN` (`none`) and `hoursUntilNext` is `null`. -/
theorem claim2_irrigate_amount_clamped :
    (∀ (hour : ℕ) (d : Reading) (soil : Soil) (w : Weather) (m : ℚ)
      (cropName : Option String) (et : ℚ) (cfg : CropConfig),
      d.soil = some soil → soil.moisture = some m → d.weather = some w →
      resolveConfig (resolveCropType d.cropType cropName) = cfg →
      0 ≤ et → m < cfg.min →
      rainDelayCond (forecastHoursOf d) (rainChanceOf d) = false →
      (generateRecommendation hour (some d) cropName et).action =
        Action.Irrigate ∧
      (generateRecommendation hour (some d) cropName et).amount =
        some (round1 (irrigationAmount cfg m et)) ∧
      cfg.waterPerIrrigation * 0.5 ≤ round1 (irrigationAmount cfg m et) ∧
      round1 (irrigationAmount cfg m et) ≤ cfg.waterPerIrrigation * 1.5 ∧
      (generateRecommendation hour (some d) cropName et).duration =
        some ⌈irrigationAmount cfg m et / 1.5⌉ ∧
      (∃ k : ℤ, (generateRecommendation hour (some d) cropName et).hoursUntilNext =
        some (k : ℚ) ∧ 1 ≤ k ∧ k ≤ 48)) ∧
    (∀ (hour : ℕ) (d : Reading) (soil : Soil) (m : ℚ)
      (cropName : Option String) (et : ℚ) (cfg : CropConfig),
      d.soil = some soil → soil.moisture = some m → d.weather = none →
      resolveConfig (resolveCropType d.cropType cropName) = cfg →
      m < cfg.min →
      (generateRecommendation hour (some d) cropName et).action =
        Action.Irrigate ∧
      (generateRecommendation hour (some d) cropName et).amount = none ∧
      (generateRecommendation hour (some d) cropName et).duration = none ∧
      (generateRecommendation hour (some d) cropName et).hoursUntilNext = none ∧
      (generateRecommendation hour (some d) cropName et).et = none) := by
  constructor
  · intro hour d soil w m cropName et cfg hsoil hm hweather hcfg het hbelow hrain
    obtain ⟨hmin_pos, hmin_le⟩ := hcfg ▸ resolveConfig_min_pos_le_max
      (resolveCropType d.cropType cropName)
    obtain ⟨nw, hnw_pos, hnw⟩ := hcfg ▸ resolveConfig_water_int
      (resolveCropType d.cropType cropName)
    have hnot : jsGt soil.moisture
        ((resolveConfig (resolveCropType d.cropType cropName)).max * 1.1) = false := by
      rw [hm, hcfg]
      simp only [jsGt, decide_eq_false_iff_not, not_lt]
      nlinarith
    have hde : dailyETOf d et = some et := by
      simp [dailyETOf, hweather]
    have hfin := generateRecommendation_final hour d soil cropName et hsoil hnot
    rw [hm, hcfg, hde] at hfin
    rw [recommendationCore_irrigate cfg m (forecastHoursOf d) (rainChanceOf d) et
      hbelow hrain] at hfin
    have hdef : 0 < cfg.max - m := by linarith
    obtain ⟨hnext1, hnext48⟩ := calculateNextIrrigationTime_mem m cfg.max et hdef het
    have hne : ¬ calculateNextIrrigationTime m cfg.max et = 0 := by linarith
    have hw_nonneg : (0 : ℚ) ≤ cfg.waterPerIrrigation := by
      rw [hnw]
      exact_mod_cast le_of_lt hnw_pos
    have hamt_lo : cfg.waterPerIrrigation * 0.5 ≤ irrigationAmount cfg m et :=
      le_max_left _ _
    have hamt_hi : irrigationAmount cfg m et ≤ cfg.waterPerIrrigation * 1.5 := by
      refine max_le ?_ (min_le_left _ _)
      nlinarith [hw_nonneg]
    have hcast_lo : ((5 * nw : ℤ) : ℚ) / 10 = cfg.waterPerIrrigation * 0.5 := by
      rw [hnw]
      push_cast
      ring
    have hcast_hi : ((15 * nw : ℤ) : ℚ) / 10 = cfg.waterPerIrrigation * 1.5 := by
      rw [hnw]
      push_cast
      ring
    have hr_lo : cfg.waterPerIrrigation * 0.5 ≤ round1 (irrigationAmount cfg m et) := by
      rw [← hcast_lo]
      exact round1_ge _ (5 * nw) (hcast_lo ▸ hamt_lo)
    have hr_hi : round1 (irrigationAmount cfg m et) ≤ cfg.waterPerIrrigation * 1.5 := by
      rw [← hcast_hi]
      exact round1_le _ (15 * nw) (hcast_hi ▸ hamt_hi)
    refine ⟨by rw [hfin], by rw [hfin], hr_lo, hr_hi, by rw [hfin], ?_⟩
    refine ⟨⌈calculateNextIrrigationTime m cfg.max et⌉, ?_, ?_, ?_⟩
    · rw [hfin]
      simp only [hne, if_false]
    · have h1 : (1 : ℤ) = ⌈(1 : ℚ)⌉ := by norm_num
      rw [h1]
      exact Int.ceil_le_ceil hnext1
    · exact Int.ceil_le.mpr (by exact_mod_cast hnext48)
  · intro hour d soil m cropName et cfg hsoil hm hweather hcfg hbelow
    obtain ⟨hmin_pos, hmin_le⟩ := hcfg ▸ resolveConfig_min_pos_le_max
      (resolveCropType d.cropType cropName)
    have hnot : jsGt soil.moisture
        ((resolveConfig (resolveCropType d.cropType cropName)).max * 1.1) = false := by
      rw [hm, hcfg]
      simp only [jsGt, decide_eq_false_iff_not, not_lt]
      nlinarith
    have hrain : rainDelayCond (forecastHoursOf d) (rainChanceOf d) = false := by
      simp [forecastHoursOf, hweather, rainDelayCond]
    have hde : dailyETOf d et = none := by
      simp [dailyETOf, hweather]
    have hfin := generateRecommendation_final hour d soil cropName et hsoil hnot
    rw [hm, hcfg, hde] at hfin
    rw [recommendationCore_irrigate_nan cfg m (forecastHoursOf d) (rainChanceOf d)
      hbelow hrain] at hfin
    rw [hfin]
    exact ⟨rfl, rfl, rfl, rfl, rfl⟩

/-- C2 counterexample: Rice at moisture 39.99 with `dailyET = 0` (reachable,
for instance, at 100% humidity).  The clamp value is 60.02 but the returned
`amount` is its one-decimal rounding 60, so the returned amount is not equal
to the clamp expression the claim specifies. -/
theorem claim2_counterexample_amount_rounded :
    (generateRecommendation 10 (some (mkReading (some (3999/100)) (some "Rice") 0))
      none 0).action = Action.Irrigate ∧
    (generateRecommendation 10 (some (mkReading (some (3999/100)) (some "Rice") 0))
      none 0).amount = some 60 ∧
    irrigationAmount (resolveConfig (resolveCropType
      (mkReading (some (3999/100)) (some "Rice") 0).cropType none)) (3999/100) 0
      = 3001/50 ∧
    (60 : ℚ) ≠ 3001/50 := by
  have hcfg : resolveConfig (resolveCropType
      (mkReading (some (3999/100)) (some "Rice") 0).cropType none)
      = ⟨40, 70, 50, 20⟩ := rfl
  have hamt : irrigationAmount ⟨40, 70, 50, 20⟩ (3999/100) 0 = 3001/50 := by
    simp only [irrigationAmount]
    rw [show (((⟨40, 70, 50, 20⟩ : CropConfig).max - 3999/100) / 100) *
        (⟨40, 70, 50, 20⟩ : CropConfig).rootDepth * 10 + (0 : ℚ) * 0.5
        = 3001/50 by norm_num]
    rw [min_eq_right (by norm_num), max_eq_right (by norm_num)]
  have hnot : jsGt (mkSoil (some (3999/100))).moisture
      ((resolveConfig (resolveCropType
        (mkReading (some (3999/100)) (some "Rice") 0).cropType none)).max * 1.1)
      = false := by
    rw [hcfg]
    simp only [mkSoil, jsGt, decide_eq_false_iff_not, not_lt]
    norm_num
  have hfin := generateRecommendation_final 10
    (mkReading (some (3999/100)) (some "Rice") 0) (mkSoil (some (3999/100)))
    none 0 rfl hnot
  rw [show (mkSoil (some (3999/100))).moisture = some (3999/100) from rfl, hcfg,
    show dailyETOf (mkReading (some (3999/100)) (some "Rice") 0) 0 = some 0 from rfl]
    at hfin
  rw [recommendationCore_irrigate ⟨40, 70, 50, 20⟩ (3999/100)
    (forecastHoursOf (mkReading (some (3999/100)) (some "Rice") 0))
    (rainChanceOf (mkReading (some (3999/100)) (some "Rice") 0)) 0
    (by norm_num) rfl] at hfin
  rw [hfin]
  refine ⟨rfl, ?_, by rw [hcfg, hamt], by norm_num⟩
  simp only [hamt]
  rw [round1_eq (3001/50) 600 (by norm_num) (by norm_num)]
  norm_num

/-- A Wheat reading with moisture but no weather block. -/
def noWeatherReading : Reading := ⟨some (mkSoil (some 20)), none, some "Wheat", 0⟩

/-- Witness for C2 (amended): Wheat at moisture 20 under a present weather
block with `dailyET = 0` for the numeric part, and the same soil without a
weather block for the NaN part. -/
theorem claim2_irrigate_amount_clamped_witness :
    ((generateRecommendation 10 (some (mkReading (some 20) (some "Wheat") 0))
      none 0).action = Action.Irrigate ∧
    (generateRecommendation 10 (some (mkReading (some 20) (some "Wheat") 0))
      none 0).amount =
      some (round1 (irrigationAmount ⟨30, 50, 35, 30⟩ 20 0)) ∧
    (⟨30, 50, 35, 30⟩ : CropConfig).waterPerIrrigation * 0.5 ≤
      round1 (irrigationAmount ⟨30, 50, 35, 30⟩ 20 0) ∧
    round1 (irrigationAmount ⟨30, 50, 35, 30⟩ 20 0) ≤
      (⟨30, 50, 35, 30⟩ : CropConfig).waterPerIrrigation * 1.5 ∧
    (generateRecommendation 10 (some (mkReading (some 20) (some "Wheat") 0))
      none 0).duration = some ⌈irrigationAmount ⟨30, 50, 35, 30⟩ 20 0 / 1.5⌉ ∧
    (∃ k : ℤ, (generateRecommendation 10 (some (mkReading (some 20) (some "Wheat") 0))
      none 0).hoursUntilNext = some (k : ℚ) ∧ 1 ≤ k ∧ k ≤ 48)) ∧
    ((generateRecommendation 10 (some noWeatherReading) none 0).action =
      Action.Irrigate ∧
    (generateRecommendation 10 (some noWeatherReading) none 0).amount = none ∧
    (generateRecommendation 10 (some noWeatherReading) none 0).duration = none ∧
    (generateRecommendation 10 (some noWeatherReading) none 0).hoursUntilNext =
      none ∧
    (generateRecommendation 10 (some noWeatherReading) none 0).et = none) :=
  ⟨claim2_irrigate_amount_clamped.1 10 (mkReading (some 20) (some "Wheat") 0)
      (mkSoil (some 20)) noRainWeather 20 none 0 ⟨30, 50, 35, 30⟩ rfl rfl rfl rfl
      le_rfl (by norm_num) rfl,
    claim2_irrigate_amount_clamped.2 10 noWeatherReading (mkSoil (some 20)) 20
      none 0 ⟨30, 50, 35, 30⟩ rfl rfl rfl rfl (by norm_num)⟩

/-- C3 counterexample: in the Stop case the returned object carries no
`priority` field at all (the `getPriority` Stop branch is never consulted
there), so the priority is not High as the claim states. -/
theorem claim3_counterexample_stop_has_no_priority :
    (generateRecommendation 10 (some (mkReading (some 60) (some "Wheat") 0))
      none 0).action = Action.Stop ∧
    (generateRecommendation 10 (some (mkReading (some 60) (some "Wheat") 0))
      none 0).priority = none ∧
    (generateRecommendation 10 (some (mkReading (some 60) (some "Wheat") 0))
      none 0).priority ≠ some Priority.High := by
  have hcond : jsGt (mkSoil (some 60)).moisture
      ((resolveConfig (resolveCropType
        (mkReading (some 60) (some "Wheat") 0).cropType none)).max * 1.1) = true := by
    have h : resolveConfig (resolveCropType
        (mkReading (some 60) (some "Wheat") 0).cropType none) = ⟨30, 50, 35, 30⟩ := rfl
    rw [h]
    simp only [mkSoil, jsGt, decide_eq_true_eq]
    norm_num
  have hstop : generateRecommendation 10 (some (mkReading (some 60) (some "Wheat") 0))
      none 0 = stopRecommendation := by
    simp only [generateRecommendation,
      show (mkReading (some 60) (some "Wheat") 0).soil = some (mkSoil (some 60)) from rfl,
      hcond, if_true]
  rw [hstop]
  exact ⟨rfl, rfl, by simp [stopRecommendation]⟩

/-- C3 (amended): the `priority` of a recommendation that reaches the final
construction obeys the stated rules (Critical below `0.7×min`, High below
`min`, Medium for other Irrigate cases, Low for Delay/Monitor/Maintain), but
the Stop early return carries no priority field; at moisture 18 on Wheat with
no rain forecast the result is Irrigate with priority Critical. -/
theorem claim3_priority_rules :
    (∀ (hour : ℕ) (d : Reading) (soil : Soil) (m : ℚ) (cropName : Option String)
      (et : ℚ) (cfg : CropConfig),
      d.soil = some soil → soil.moisture = some m →
      resolveConfig (resolveCropType d.cropType cropName) = cfg →
      ((generateRecommendation hour (some d) cropName et).action = Action.Stop →
        (generateRecommendation hour (some d) cropName et).priority = none) ∧
      ((generateRecommendation hour (some d) cropName et).action = Action.Irrigate →
        (generateRecommendation hour (some d) cropName et).priority =
          some (if m < cfg.min * 0.7 then Priority.Critical
            else if m < cfg.min then Priority.High else Priority.Medium)) ∧
      ((generateRecommendation hour (some d) cropName et).action = Action.Delay ∨
        (generateRecommendation hour (some d) cropName et).action = Action.Monitor ∨
        (generateRecommendation hour (some d) cropName et).action = Action.Maintain →
        (generateRecommendation hour (some d) cropName et).priority =
          some Priority.Low)) ∧
    (generateRecommendation 10 (some (mkReading (some 18) (some "Wheat") 0))
      none 0).action = Action.Irrigate ∧
    (generateRecommendation 10 (some (mkReading (some 18) (some "Wheat") 0))
      none 0).priority = some Priority.Critical := by
  constructor
  · intro hour d soil m cropName et cfg hsoil hm hcfg
    by_cases hg : jsGt soil.moisture
        ((resolveConfig (resolveCropType d.cropType cropName)).max * 1.1) = true
    · have hstop : generateRecommendation hour (some d) cropName et =
          stopRecommendation := by
        simp only [generateRecommendation, hsoil, hg, if_true]
      rw [hstop]
      refine ⟨fun _ => rfl, fun h => ?_, fun h => ?_⟩
      · simp [stopRecommendation] at h
      · rcases h with h | h | h <;> simp [stopRecommendation] at h
    · have hg' : jsGt soil.moisture
          ((resolveConfig (resolveCropType d.cropType cropName)).max * 1.1) = false :=
        by simpa using hg
      have hfin := generateRecommendation_final hour d soil cropName et hsoil hg'
      rw [hm, hcfg] at hfin
      by_cases hb : m < cfg.min
      · by_cases hr : rainDelayCond (forecastHoursOf d) (rainChanceOf d) = true
        · rw [recommendationCore_delay cfg m (forecastHoursOf d) (rainChanceOf d)
            (dailyETOf d et) hb hr] at hfin
          rw [hfin]
          refine ⟨fun h => ?_, fun h => ?_, fun _ => ?_⟩
          · simp at h
          · simp at h
          · simp [getPriority]
        · have hr' : rainDelayCond (forecastHoursOf d) (rainChanceOf d) = false :=
            by simpa using hr
          rcases hde : dailyETOf d et with _ | etv
          · rw [hde, recommendationCore_irrigate_nan cfg m (forecastHoursOf d)
              (rainChanceOf d) hb hr'] at hfin
            rw [hfin]
            refine ⟨fun h => ?_, fun _ => ?_, fun h => ?_⟩
            · simp at h
            · simp [getPriority, jsLt]
            · rcases h with h | h | h <;> simp at h
          · rw [hde, recommendationCore_irrigate cfg m (forecastHoursOf d)
              (rainChanceOf d) etv hb hr'] at hfin
            rw [hfin]
            refine ⟨fun h => ?_, fun _ => ?_, fun h => ?_⟩
            · simp at h
            · simp [getPriority, jsLt]
            · rcases h with h | h | h <;> simp at h
      · have hb' : jsLt (some m) cfg.min = false := by
          simp [jsLt, hb]
        rw [recommendationCore_not_below cfg (some m) (forecastHoursOf d)
          (rainChanceOf d) (dailyETOf d et) hb'] at hfin
        by_cases hmid : jsLt (some m) ((cfg.min + cfg.max) / 2) = true
        · rw [if_pos hmid] at hfin
          rw [hfin]
          refine ⟨fun h => ?_, fun h => ?_, fun _ => ?_⟩
          · simp at h
          · simp at h
          · simp [getPriority]
        · rw [if_neg hmid] at hfin
          rw [hfin]
          refine ⟨fun h => ?_, fun h => ?_, fun _ => ?_⟩
          · simp at h
          · simp at h
          · simp [getPriority]
  · have hg' : jsGt (mkSoil (some 18)).moisture
        ((resolveConfig (resolveCropType
          (mkReading (some 18) (some "Wheat") 0).cropType none)).max * 1.1) = false := by
      have h : resolveConfig (resolveCropType
          (mkReading (some 18) (some "Wheat") 0).cropType none) = ⟨30, 50, 35, 30⟩ := rfl
      rw [h]
      simp only [mkSoil, jsGt, decide_eq_false_iff_not, not_lt]
      norm_num
    have hfin := generateRecommendation_final 10 (mkReading (some 18) (some "Wheat") 0)
      (mkSoil (some 18)) none 0 rfl hg'
    rw [show (mkSoil (some 18)).moisture = some 18 from rfl,
      show resolveConfig (resolveCropType
        (mkReading (some 18) (some "Wheat") 0).cropType none) = ⟨30, 50, 35, 30⟩ from rfl,
      show dailyETOf (mkReading (some 18) (some "Wheat") 0) 0 = some 0 from rfl]
      at hfin
    rw [recommendationCore_irrigate ⟨30, 50, 35, 30⟩ 18
      (forecastHoursOf (mkReading (some 18) (some "Wheat") 0))
      (rainChanceOf (mkReading (some 18) (some "Wheat") 0)) 0
      (by norm_num) rfl] at hfin
    rw [hfin]
    refine ⟨rfl, ?_⟩
    have : getPriority Action.Irrigate (some 18)
        (⟨30, 50, 35, 30⟩ : CropConfig).min (⟨30, 50, 35, 30⟩ : CropConfig).max =
        Priority.Critical := by
      simp only [getPriority, jsLt]
      norm_num
    simp [this]

/-- Witness for C3 (amended): the universally quantified part applied to the
Stop input and to a Monitor input. -/
theorem claim3_priority_rules_witness :
    ((generateRecommendation 10 (some (mkReading (some 60) (some "Wheat") 0))
      none 0).action = Action.Stop →
      (generateRecommendation 10 (some (mkReading (some 60) (some "Wheat") 0))
        none 0).priority = none) ∧
    (generateRecommendation 10 (some (mkReading (some 18) (some "Wheat") 0))
      none 0).action = Action.Irrigate ∧
    (generateRecommendation 10 (some (mkReading (some 18) (some "Wheat") 0))
      none 0).priority = some Priority.Critical :=
  ⟨(claim3_priority_rules.1 10 (mkReading (some 60) (some "Wheat") 0)
      (mkSoil (some 60)) 60 none 0 ⟨30, 50, 35, 30⟩ rfl rfl rfl).1,
    claim3_priority_rules.2.1, claim3_priority_rules.2.2⟩

/-! Structure lemmas for `detectAnomalies`. -/

/-- Every element of the leak check's output is the Leak anomaly. -/
theorem mem_leakAnomalies (history : List Reading) (latest : Reading)
    (moisture : Option ℚ) (dailyET : ℚ) (a : Anomaly)
    (ha : a ∈ leakAnomalies history latest moisture dailyET) :
    a = ⟨AnomalyType.Leak, Severity.High⟩ := by
  unfold leakAnomalies at ha
  repeat split at ha
  all_goals simp_all

/-- Characterisation of the dry-stress check's output. -/
theorem mem_dryStressAnomalies (moisture : Option ℚ) (recent : List Reading)
    (mn : ℚ) (a : Anomaly) (ha : a ∈ dryStressAnomalies moisture recent mn) :
    ∃ m, moisture = some m ∧ m < mn * 0.8 ∧ 5 ≤ lowMoistureCount recent mn ∧
      a = ⟨AnomalyType.DryStress,
        if m < mn * 0.6 then Severity.Critical else Severity.High⟩ := by
  unfold dryStressAnomalies at ha
  repeat split at ha
  all_goals simp_all
  all_goals rw [if_neg (by linarith)]

/-- Characterisation of the over-irrigation check's output. -/
theorem mem_overIrrigationAnomalies (moisture : Option ℚ) (recent : List Reading)
    (mx : ℚ) (a : Anomaly) (ha : a ∈ overIrrigationAnomalies moisture recent mx) :
    ∃ m, moisture = some m ∧ mx * 1.15 < m ∧ 3 ≤ highMoistureCount recent mx ∧
      a = ⟨AnomalyType.OverIrrigation,
        if mx * 1.3 < m then Severity.High else Severity.Medium⟩ := by
  unfold overIrrigationAnomalies at ha
  repeat split at ha
  all_goals simp_all
  all_goals rw [if_neg (by linarith)]

/-- Every element of the abnormal-pattern check's output is the pattern
anomaly. -/
theorem mem_abnormalPatternAnomalies (recent : List Reading) (a : Anomaly)
    (ha : a ∈ abnormalPatternAnomalies recent) :
    a = ⟨AnomalyType.AbnormalPattern, Severity.Medium⟩ := by
  unfold abnormalPatternAnomalies at ha
  repeat split at ha
  all_goals simp_all

/-- With enough history and a present soil block, `detectAnomalies` is the
concatenation of its four independent checks. -/
theorem detectAnomalies_eq (history : List Reading) (currentData : Option Reading)
    (cropName : Option String) (dailyET : ℚ) (latest : Reading) (soil : Soil)
    (hlen : ¬ history.length < 5)
    (hlatest : latestOf history currentData = some latest)
    (hsoil : latest.soil = some soil) :
    detectAnomalies history currentData cropName dailyET =
      leakAnomalies history latest soil.moisture dailyET
        ++ dryStressAnomalies soil.moisture (takeLast10 history)
            (resolveConfig (resolveCropType latest.cropType cropName)).min
        ++ overIrrigationAnomalies soil.moisture (takeLast10 history)
            (resolveConfig (resolveCropType latest.cropType cropName)).max
        ++ abnormalPatternAnomalies (takeLast10 history) := by
  unfold detectAnomalies
  rw [if_neg hlen]
  simp only [hlatest, hsoil]

/-- The count of low readings is bounded by the history length. -/
theorem lowMoistureCount_le (recent : List Reading) (mn : ℚ) :
    lowMoistureCount recent mn ≤ recent.length :=
  List.length_filter_le _ _

/-- Ten consecutive hourly Wheat readings all at moisture 22. -/
def wheat22History : List Reading :=
  [mkReading (some 22) (some "Wheat") 0,
   mkReading (some 22) (some "Wheat") 3600000,
   mkReading (some 22) (some "Wheat") 7200000,
   mkReading (some 22) (some "Wheat") 10800000,
   mkReading (some 22) (some "Wheat") 14400000,
   mkReading (some 22) (some "Wheat") 18000000,
   mkReading (some 22) (some "Wheat") 21600000,
   mkReading (some 22) (some "Wheat") 25200000,
   mkReading (some 22) (some "Wheat") 28800000,
   mkReading (some 22) (some "Wheat") 32400000]

/-- C5: `detectAnomalies` emits a Dry Stress anomaly exactly when the current
moisture is below `0.8×min` and at least 5 of the last 10 history records are
below `min`, with severity Critical below `0.6×min` and High otherwise; ten
consecutive Wheat readings at moisture 22 yield exactly a Dry Stress entry of
severity High. -/
theorem claim5_dry_stress_iff :
    (∀ (history : List Reading) (currentData : Option Reading)
      (cropName : Option String) (et : ℚ) (latest : Reading) (soil : Soil)
      (m : ℚ) (cfg : CropConfig),
      latestOf history currentData = some latest →
      latest.soil = some soil → soil.moisture = some m →
      resolveConfig (resolveCropType latest.cropType cropName) = cfg →
      ((∃ a ∈ detectAnomalies history currentData cropName et,
          a.atype = AnomalyType.DryStress) ↔
        (m < cfg.min * 0.8 ∧ 5 ≤ lowMoistureCount (takeLast10 history) cfg.min)) ∧
      (∀ a ∈ detectAnomalies history currentData cropName et,
        a.atype = AnomalyType.DryStress →
        a.severity =
          if m < cfg.min * 0.6 then Severity.Critical else Severity.High)) ∧
    detectAnomalies wheat22History none none 0 =
      [⟨AnomalyType.DryStress, Severity.High⟩] := by
  constructor
  · intro history currentData cropName et latest soil m cfg hlatest hsoil hm hcfg
    by_cases hlen : history.length < 5
    · have hres : detectAnomalies history currentData cropName et = [] := by
        unfold detectAnomalies
        rw [if_pos hlen]
      rw [hres]
      constructor
      · constructor
        · rintro ⟨a, ha, _⟩
          exact absurd ha (List.not_mem_nil a)
        · rintro ⟨_, hcnt⟩
          have h1 := lowMoistureCount_le (takeLast10 history) cfg.min
          have h2 : (takeLast10 history).length ≤ history.length := by
            simp [takeLast10]
          omega
      · intro a ha
        exact absurd ha (List.not_mem_nil a)
    · rw [detectAnomalies_eq history currentData cropName et latest soil hlen
        hlatest hsoil, hm, hcfg]
      constructor
      · constructor
        · rintro ⟨a, ha, hat⟩
          rcases List.mem_append.mp ha with ha | ha
          · rcases List.mem_append.mp ha with ha | ha
            · rcases List.mem_append.mp ha with ha | ha
              · rw [mem_leakAnomalies _ _ _ _ a ha] at hat
                simp at hat
              · obtain ⟨m', hm', hc1, hc2, _⟩ :=
                  mem_dryStressAnomalies _ _ _ a ha
                obtain rfl : m = m' := by injection hm'
                exact ⟨hc1, hc2⟩
            · obtain ⟨m', _, _, _, haeq⟩ :=
                mem_overIrrigationAnomalies _ _ _ a ha
              rw [haeq] at hat
              simp at hat
          · rw [mem_abnormalPatternAnomalies _ a ha] at hat
            simp at hat
        · rintro ⟨h1, h2⟩
          refine ⟨⟨AnomalyType.DryStress,
            if m < cfg.min * 0.6 then Severity.Critical else Severity.High⟩, ?_, rfl⟩
          have hd : dryStressAnomalies (some m) (takeLast10 history) cfg.min =
              [⟨AnomalyType.DryStress,
                if m < cfg.min * 0.6 then Severity.Critical else Severity.High⟩] := by
            simp [dryStressAnomalies, h1, h2]
          simp only [List.mem_append]
          exact Or.inl (Or.inl (Or.inr (by rw [hd]; exact List.mem_singleton_self _)))
      · intro a ha hat
        rcases List.mem_append.mp ha with ha | ha
        · rcases List.mem_append.mp ha with ha | ha
          · rcases List.mem_append.mp ha with ha | ha
            · rw [mem_leakAnomalies _ _ _ _ a ha] at hat
              simp at hat
            · obtain ⟨m', hm', _, _, haeq⟩ := mem_dryStressAnomalies _ _ _ a ha
              obtain rfl : m = m' := by injection hm'
              rw [haeq]
          · obtain ⟨m', _, _, _, haeq⟩ := mem_overIrrigationAnomalies _ _ _ a ha
            rw [haeq] at hat
            simp at hat
        · rw [mem_abnormalPatternAnomalies _ a ha] at hat
          simp at hat
  · have hlen : ¬ wheat22History.length < 5 := by decide
    have hlatest : latestOf wheat22History none =
        some (mkReading (some 22) (some "Wheat") 32400000) := rfl
    have hsoil : (mkReading (some 22) (some "Wheat") 32400000).soil =
        some (mkSoil (some 22)) := rfl
    rw [detectAnomalies_eq wheat22History none none 0
      (mkReading (some 22) (some "Wheat") 32400000) (mkSoil (some 22))
      hlen hlatest hsoil]
    have hleak : leakAnomalies wheat22History
        (mkReading (some 22) (some "Wheat") 32400000) (mkSoil (some 22)).moisture 0
        = [] := by
      unfold leakAnomalies
      norm_num [wheat22History, moistureOf, mkReading, mkSoil]
    have hdry : dryStressAnomalies (mkSoil (some 22)).moisture
        (takeLast10 wheat22History)
        (resolveConfig (resolveCropType
          (mkReading (some 22) (some "Wheat") 32400000).cropType none)).min
        = [⟨AnomalyType.DryStress, Severity.High⟩] := by
      rw [show resolveConfig (resolveCropType
        (mkReading (some 22) (some "Wheat") 32400000).cropType none)
        = ⟨30, 50, 35, 30⟩ from rfl]
      unfold dryStressAnomalies lowMoistureCount
      norm_num [takeLast10, wheat22History, jsLt, moistureOf, mkReading, mkSoil]
    have hover : overIrrigationAnomalies (mkSoil (some 22)).moisture
        (takeLast10 wheat22History)
        (resolveConfig (resolveCropType
          (mkReading (some 22) (some "Wheat") 32400000).cropType none)).max
        = [] := by
      rw [show resolveConfig (resolveCropType
        (mkReading (some 22) (some "Wheat") 32400000).cropType none)
        = ⟨30, 50, 35, 30⟩ from rfl]
      unfold overIrrigationAnomalies
      norm_num [mkSoil]
    have hpat : abnormalPatternAnomalies (takeLast10 wheat22History) = [] := by
      have hvals : List.filterMap moistureOf (takeLast10 wheat22History) =
          [22, 22, 22, 22, 22, 22, 22, 22, 22, 22] := rfl
      have hlen10 : (takeLast10 wheat22History).length = 10 := rfl
      unfold abnormalPatternAnomalies
      rw [hvals, hlen10]
      norm_num [List.sum_cons, List.sum_nil, List.map_cons, List.map_nil]
    rw [hleak, hdry, hover, hpat]
    rfl

/-- Witness for C5: the characterisation applied to the ten-reading Wheat
fixture. -/
theorem claim5_dry_stress_iff_witness :
    ((∃ a ∈ detectAnomalies wheat22History none none 0,
        a.atype = AnomalyType.DryStress) ↔
      ((22 : ℚ) < (⟨30, 50, 35, 30⟩ : CropConfig).min * 0.8 ∧
        5 ≤ lowMoistureCount (takeLast10 wheat22History)
          (⟨30, 50, 35, 30⟩ : CropConfig).min)) ∧
    (∀ a ∈ detectAnomalies wheat22History none none 0,
      a.atype = AnomalyType.DryStress →
      a.severity = if (22 : ℚ) < (⟨30, 50, 35, 30⟩ : CropConfig).min * 0.6
        then Severity.Critical else Severity.High) :=
  claim5_dry_stress_iff.1 wheat22History none none 0
    (mkReading (some 22) (some "Wheat") 32400000) (mkSoil (some 22)) 22
    ⟨30, 50, 35, 30⟩ rfl rfl rfl rfl

/-- C10: no single call to `detectAnomalies` returns both a Dry Stress and an
Over-Irrigation anomaly — the resolved profile always comes from the crop
table, where `0 < min ≤ max`, making the trigger conditions `m < 0.8×min` and
`m > 1.15×max` mutually exclusive. -/
theorem claim10_dry_and_over_exclusive (history : List Reading)
    (currentData : Option Reading) (cropName : Option String) (et : ℚ) :
    (((detectAnomalies history currentData cropName et).any
        (fun a => decide (a.atype = AnomalyType.DryStress))) &&
      ((detectAnomalies history currentData cropName et).any
        (fun a => decide (a.atype = AnomalyType.OverIrrigation)))) = false := by
  by_contra hcon
  rw [Bool.not_eq_false, Bool.and_eq_true, List.any_eq_true, List.any_eq_true] at hcon
  obtain ⟨⟨a, ha, hpa⟩, ⟨b, hb, hpb⟩⟩ := hcon
  rw [decide_eq_true_eq] at hpa hpb
  by_cases hlen : history.length < 5
  · have hres : detectAnomalies history currentData cropName et = [] := by
      unfold detectAnomalies
      rw [if_pos hlen]
    rw [hres] at ha
    exact absurd ha (List.not_mem_nil a)
  · rcases hl : latestOf history currentData with _ | latest
    · have hres : detectAnomalies history currentData cropName et = [] := by
        unfold detectAnomalies
        rw [if_neg hlen]
        simp only [hl]
      rw [hres] at ha
      exact absurd ha (List.not_mem_nil a)
    · rcases hs : latest.soil with _ | soil
      · have hres : detectAnomalies history currentData cropName et = [] := by
          unfold detectAnomalies
          rw [if_neg hlen]
          simp only [hl, hs]
        rw [hres] at ha
        exact absurd ha (List.not_mem_nil a)
      · rw [detectAnomalies_eq history currentData cropName et latest soil
          hlen hl hs] at ha hb
        obtain ⟨hmin_pos, hmin_le⟩ :=
          resolveConfig_min_pos_le_max (resolveCropType latest.cropType cropName)
        have hdry : ∃ m, soil.moisture = some m ∧
            m < (resolveConfig (resolveCropType latest.cropType cropName)).min * 0.8 := by
          rcases List.mem_append.mp ha with ha' | ha'
          · rcases List.mem_append.mp ha' with ha'' | ha''
            · rcases List.mem_append.mp ha'' with ha3 | ha3
              · rw [mem_leakAnomalies _ _ _ _ a ha3] at hpa
                simp at hpa
              · obtain ⟨m, hmm, hc, _, _⟩ := mem_dryStressAnomalies _ _ _ a ha3
                exact ⟨m, hmm, hc⟩
            · obtain ⟨m, _, _, _, haeq⟩ := mem_overIrrigationAnomalies _ _ _ a ha''
              rw [haeq] at hpa
              simp at hpa
          · rw [mem_abnormalPatternAnomalies _ a ha'] at hpa
            simp at hpa
        have hover : ∃ m, soil.moisture = some m ∧
            (resolveConfig (resolveCropType latest.cropType cropName)).max * 1.15 < m := by
          rcases List.mem_append.mp hb with hb' | hb'
          · rcases List.mem_append.mp hb' with hb'' | hb''
            · rcases List.mem_append.mp hb'' with hb3 | hb3
              · rw [mem_leakAnomalies _ _ _ _ b hb3] at hpb
                simp at hpb
              · obtain ⟨m, _, _, _, hbeq⟩ := mem_dryStressAnomalies _ _ _ b hb3
                rw [hbeq] at hpb
                simp at hpb
            · obtain ⟨m, hmm, hc, _, _⟩ := mem_overIrrigationAnomalies _ _ _ b hb''
              exact ⟨m, hmm, hc⟩
          · rw [mem_abnormalPatternAnomalies _ b hb'] at hpb
            simp at hpb
        obtain ⟨m1, hm1, hlt1⟩ := hdry
        obtain ⟨m2, hm2, hlt2⟩ := hover
        rw [hm1] at hm2
        obtain rfl : m1 = m2 := by injection hm2
        linarith

/-! Structure lemmas for `calculateWaterSavings`. -/

/-- With at least 7 records, `calculateWaterSavings` computes the
baseline/optimized comparison from the first and last records. -/
theorem calculateWaterSavings_eq (first : Reading) (rest : List Reading)
    (last : Reading) (r : Option Recommendation)
    (hlen : ¬ (first :: rest).length < 7)
    (hlast : (first :: rest).getLast? = some last) :
    calculateWaterSavings (first :: rest) r =
      { saved := round1 (max 0 (40 *
          ((⌈(first.timestamp - last.timestamp) / (1000 * 60 * 60 * 24)⌉ : ℤ) : ℚ) -
          (irrigationEventCount ((first :: rest).take
            (min 168 (first :: rest).length)) : ℚ) * avgIrrigationAmountOf r))
        percentage := round1 (if 0 < 40 *
            ((⌈(first.timestamp - last.timestamp) / (1000 * 60 * 60 * 24)⌉ : ℤ) : ℚ)
          then max 0 (40 *
              ((⌈(first.timestamp - last.timestamp) / (1000 * 60 * 60 * 24)⌉ : ℤ) : ℚ) -
              (irrigationEventCount ((first :: rest).take
                (min 168 (first :: rest).length)) : ℚ) * avgIrrigationAmountOf r) /
            (40 * ((⌈(first.timestamp - last.timestamp) / (1000 * 60 * 60 * 24)⌉ : ℤ) : ℚ))
            * 100
          else 0)
        baseline := round1 (40 *
          ((⌈(first.timestamp - last.timestamp) / (1000 * 60 * 60 * 24)⌉ : ℤ) : ℚ))
        optimized := round1 ((irrigationEventCount ((first :: rest).take
          (min 168 (first :: rest).length)) : ℚ) * avgIrrigationAmountOf r)
        irrigationEvents := some (irrigationEventCount ((first :: rest).take
          (min 168 (first :: rest).length)))
        daysAnalyzed := some (min 7
          ⌈(first.timestamp - last.timestamp) / (1000 * 60 * 60 * 24)⌉) } := by
  unfold calculateWaterSavings
  rw [if_neg hlen]
  simp only [hlast]

/-- Seven hourly records spanning six hours, newest first, with one >5%
relative moisture drop between the two newest records. -/
def shortSpanTail : List Reading :=
  [mkReading (some 40) (some "Wheat") 18000000,
   mkReading (some 40) (some "Wheat") 14400000,
   mkReading (some 40) (some "Wheat") 10800000,
   mkReading (some 40) (some "Wheat") 7200000,
   mkReading (some 40) (some "Wheat") 3600000,
   mkReading (some 40) (some "Wheat") 0]

/-- The seven-record, six-hour history used against C7. -/
def shortSpanHistory : List Reading :=
  mkReading (some 50) (some "Wheat") 21600000 :: shortSpanTail

/-- C7 counterexample: seven records covering only six hours (far fewer than
7 days) do not produce the all-zero result — the guard tests the record
count, not the days covered. -/
theorem claim7_counterexample_seven_records_short_span :
    (calculateWaterSavings shortSpanHistory none).baseline = 40 ∧
    (calculateWaterSavings shortSpanHistory none).saved = 5 ∧
    calculateWaterSavings shortSpanHistory none ≠ zeroSavings ∧
    (mkReading (some 50) (some "Wheat") 21600000).timestamp -
      (mkReading (some 40) (some "Wheat") 0).timestamp < 7 * (1000 * 60 * 60 * 24) := by
  have hstep := calculateWaterSavings_eq (mkReading (some 50) (some "Wheat") 21600000)
    shortSpanTail (mkReading (some 40) (some "Wheat") 0) none (by decide) rfl
  have hdays : (⌈((mkReading (some 50) (some "Wheat") 21600000).timestamp -
      (mkReading (some 40) (some "Wheat") 0).timestamp) / (1000 * 60 * 60 * 24)⌉ : ℤ)
      = 1 := by
    rw [show (mkReading (some 50) (some "Wheat") 21600000).timestamp = 21600000 from rfl,
      show (mkReading (some 40) (some "Wheat") 0).timestamp = 0 from rfl]
    exact intCeil_eq _ 1 (by norm_num) (by norm_num)
  have htake : (mkReading (some 50) (some "Wheat") 21600000 :: shortSpanTail).take
      (min 168 (mkReading (some 50) (some "Wheat") 21600000 :: shortSpanTail).length)
      = mkReading (some 50) (some "Wheat") 21600000 :: shortSpanTail := rfl
  have hevents : irrigationEventCount
      (mkReading (some 50) (some "Wheat") 21600000 :: shortSpanTail) = 1 := by
    unfold irrigationEventCount
    rw [show (mkReading (some 50) (some "Wheat") 21600000 :: shortSpanTail).zip
      ((mkReading (some 50) (some "Wheat") 21600000 :: shortSpanTail).drop 1) =
      [(mkReading (some 50) (some "Wheat") 21600000, mkReading (some 40) (some "Wheat") 18000000),
       (mkReading (some 40) (some "Wheat") 18000000, mkReading (some 40) (some "Wheat") 14400000),
       (mkReading (some 40) (some "Wheat") 14400000, mkReading (some 40) (some "Wheat") 10800000),
       (mkReading (some 40) (some "Wheat") 10800000, mkReading (some 40) (some "Wheat") 7200000),
       (mkReading (some 40) (some "Wheat") 7200000, mkReading (some 40) (some "Wheat") 3600000),
       (mkReading (some 40) (some "Wheat") 3600000, mkReading (some 40) (some "Wheat") 0)]
      from rfl]
    norm_num [moistureOf, mkReading, mkSoil]
  rw [show shortSpanHistory = mkReading (some 50) (some "Wheat") 21600000 :: shortSpanTail
    from rfl, hstep]
  rw [hdays] at *
  rw [htake, hevents]
  have h35 : avgIrrigationAmountOf none = 35 := rfl
  rw [h35]
  have hmax : max (0 : ℚ) (40 * ((1 : ℤ) : ℚ) - (1 : ℕ) * 35) = 5 := by
    rw [max_eq_right (by norm_num)]
    norm_num
  refine ⟨?_, ?_, ?_, by norm_num [mkReading]⟩
  · rw [show (40 : ℚ) * ((1 : ℤ) : ℚ) = ((40 : ℤ) : ℚ) by norm_num, round1_intCast]
    norm_num
  · rw [hmax, show (5 : ℚ) = ((5 : ℤ) : ℚ) by norm_num, round1_intCast]
  · intro hcon
    have := congrArg WaterSavings.irrigationEvents hcon
    simp [zeroSavings] at this

/-- C7 (amended): `calculateWaterSavings` returns the all-zero result exactly
under its guard `history.length < 7` — a record count, not a days-covered
test; with 7 or more records the baseline is `40 × ceil((first − last)/day)`
and the optimized figure counts pairs where the later moisture is below 95%
of the earlier one, times the recommendation amount (35 when the
recommendation or its amount is absent or zero). -/
theorem claim7_savings_formula :
    (∀ (historicalData : List Reading) (r : Option Recommendation),
      historicalData.length < 7 →
      calculateWaterSavings historicalData r = zeroSavings) ∧
    (∀ (first : Reading) (rest : List Reading) (last : Reading)
      (r : Option Recommendation),
      ¬ (first :: rest).length < 7 → (first :: rest).getLast? = some last →
      (calculateWaterSavings (first :: rest) r).baseline =
        40 * ((⌈(first.timestamp - last.timestamp) / (1000 * 60 * 60 * 24)⌉ : ℤ) : ℚ) ∧
      (calculateWaterSavings (first :: rest) r).optimized =
        round1 ((irrigationEventCount ((first :: rest).take
          (min 168 (first :: rest).length)) : ℚ) * avgIrrigationAmountOf r) ∧
      (calculateWaterSavings (first :: rest) r).irrigationEvents =
        some (irrigationEventCount ((first :: rest).take
          (min 168 (first :: rest).length)))) := by
  constructor
  · intro historicalData r h
    unfold calculateWaterSavings
    rw [if_pos h]
  · intro first rest last r hlen hlast
    rw [calculateWaterSavings_eq first rest last r hlen hlast]
    refine ⟨?_, rfl, rfl⟩
    rw [show (40 : ℚ) *
        ((⌈(first.timestamp - last.timestamp) / (1000 * 60 * 60 * 24)⌉ : ℤ) : ℚ) =
        ((40 * ⌈(first.timestamp - last.timestamp) / (1000 * 60 * 60 * 24)⌉ : ℤ) : ℚ)
      by push_cast; ring, round1_intCast]

/-- Witness for C7 (amended): the zero guard on a one-record history and the
formula on the seven-record fixture. -/
theorem claim7_savings_formula_witness :
    calculateWaterSavings [mkReading (some 40) (some "Wheat") 0] none = zeroSavings ∧
    (calculateWaterSavings shortSpanHistory none).baseline =
      40 * ((⌈((mkReading (some 50) (some "Wheat") 21600000).timestamp -
        (mkReading (some 40) (some "Wheat") 0).timestamp) / (1000 * 60 * 60 * 24)⌉ : ℤ) : ℚ) ∧
    (calculateWaterSavings shortSpanHistory none).irrigationEvents =
      some (irrigationEventCount (shortSpanHistory.take
        (min 168 shortSpanHistory.length))) :=
  ⟨claim7_savings_formula.1 [mkReading (some 40) (some "Wheat") 0] none (by decide),
    (claim7_savings_formula.2 (mkReading (some 50) (some "Wheat") 21600000)
      shortSpanTail (mkReading (some 40) (some "Wheat") 0) none (by decide) rfl).1,
    (claim7_savings_formula.2 (mkReading (some 50) (some "Wheat") 21600000)
      shortSpanTail (mkReading (some 40) (some "Wheat") 0) none (by decide) rfl).2.2⟩

/-- A reading with a present but empty soil block and a present weather
block. -/
def emptySoilReading : Reading :=
  ⟨some ⟨none, none, none, none, none, none⟩, some noRainWeather, none, 0⟩

/-- C8 counterexample: a present soil block without a `moisture` field drives
`Math.max(0.3, NaN) = NaN` through the score, so the function returns `NaN`
(modelled as `none`) — not a value in `[0, 100]` and not the degraded 0. -/
theorem claim8_counterexample_missing_moisture_nan :
    predictYieldHealth (some emptySoilReading) none = none ∧
    predictYieldHealth (some emptySoilReading) none ≠ some 0 := by
  have h : predictYieldHealth (some emptySoilReading) none = none := rfl
  rw [h]
  exact ⟨rfl, by simp⟩

/-- C8 (amended): `predictYieldHealth` returns 0 when the reading, its soil
block or its weather block is absent, and a value in `[0, 100]` whenever the
soil block carries a moisture value; with N=80, P=45, K=50, pH=6.5, moisture
inside the crop's range, temperature 25 and solar radiation 600 the score is
exactly 100.  When a present soil block lacks `moisture` the result is `NaN`
(`none`), not a number in the range. -/
theorem claim8_yield_health_range :
    (∀ cropName, predictYieldHealth none cropName = some 0) ∧
    (∀ (d : Reading) (cropName : Option String), d.soil = none →
      predictYieldHealth (some d) cropName = some 0) ∧
    (∀ (d : Reading) (cropName : Option String), d.weather = none →
      predictYieldHealth (some d) cropName = some 0) ∧
    (∀ (d : Reading) (soil : Soil) (weather : Weather) (m : ℚ)
      (cropName : Option String),
      d.soil = some soil → d.weather = some weather → soil.moisture = some m →
      ∃ q : ℚ, predictYieldHealth (some d) cropName = some q ∧ 0 ≤ q ∧ q ≤ 100) ∧
    (∀ (d : Reading) (soil : Soil) (weather : Weather) (m : ℚ)
      (cropName : Option String) (cfg : CropConfig),
      d.soil = some soil → d.weather = some weather →
      resolveConfig (resolveCropType d.cropType cropName) = cfg →
      soil.nitrogen = some 80 → soil.phosphorus = some 45 →
      soil.potassium = some 50 → soil.ph = some (13/2) →
      soil.moisture = some m → cfg.min ≤ m → m ≤ cfg.max →
      weather.temperature = 25 → weather.solarRadiation = 600 →
      predictYieldHealth (some d) cropName = some 100) := by
  refine ⟨fun _ => rfl, ?_, ?_, ?_, ?_⟩
  · intro d cropName h
    unfold predictYieldHealth
    simp only [h]
  · intro d cropName h
    unfold predictYieldHealth
    rcases hs : d.soil with _ | soil <;> simp [h, hs]
  · intro d soil weather m cropName hsoil hweather hm
    unfold predictYieldHealth
    simp only [hsoil, hweather, hm]
    refine ⟨_, rfl, ?_, ?_⟩
    · exact_mod_cast le_max_left (0 : ℤ) _
    · exact_mod_cast max_le (by norm_num : (0 : ℤ) ≤ 100) (min_le_left 100 _)
  · intro d soil weather m cropName cfg hsoil hweather hcfg hn hp hk hph hm hm1 hm2
      ht hs
    unfold predictYieldHealth
    simp only [hsoil, hweather, hm, hcfg, hn, hp, hk, hph, ht, hs, Option.getD_some]
    rw [if_pos (And.intro hm1 hm2)]
    have hj : jsRound (100 : ℚ) = 100 := by
      unfold jsRound
      exact Int.floor_eq_iff.mpr ⟨by norm_num, by norm_num⟩
    norm_num [hj, min_def, max_def]

/-- Witness for C8 (amended): the in-range part and the perfect-input part at
concrete readings. -/
theorem claim8_yield_health_range_witness :
    (∃ q : ℚ, predictYieldHealth (some (mkReading (some 40) (some "Wheat") 0))
      none = some q ∧ 0 ≤ q ∧ q ≤ 100) ∧
    predictYieldHealth (some ⟨some ⟨some 40, none, some 80, some 45, some 50,
      some (13/2)⟩, some ⟨25, 65, 0, 8, 600, none⟩, some "Wheat", 0⟩) none =
      some 100 :=
  ⟨claim8_yield_health_range.2.2.2.1 (mkReading (some 40) (some "Wheat") 0)
      (mkSoil (some 40)) noRainWeather 40 none rfl rfl rfl,
    claim8_yield_health_range.2.2.2.2
      ⟨some ⟨some 40, none, some 80, some 45, some 50, some (13/2)⟩,
        some ⟨25, 65, 0, 8, 600, none⟩, some "Wheat", 0⟩
      ⟨some 40, none, some 80, some 45, some 50, some (13/2)⟩
      ⟨25, 65, 0, 8, 600, none⟩ 40 none ⟨30, 50, 35, 30⟩
      rfl rfl rfl rfl rfl rfl rfl rfl (by norm_num) (by norm_num) rfl rfl⟩

/-- C6 counterexample: at temperature 0, humidity 200% and wind −100 km/h —
finite inputs — the vapor-pressure deficit is negative and raising the solar
radiation from 0 to 10 strictly lowers the estimate, so `calculateET` is not
monotone in solar radiation over all finite inputs. -/
theorem claim6_counterexample_solar_not_monotone :
    calculateET 0 200 (-100) 10 "Default" < calculateET 0 200 (-100) 0 "Default" := by
  simp only [calculateET]
  have harg : (17.27 : ℝ) * 0 / (237.3 + 0) = 0 := by norm_num
  rw [harg, Real.exp_zero]
  rw [max_eq_right (by norm_num), max_eq_right (by norm_num)]
  norm_num

/-- C6 (amended): `calculateET` is nonnegative for every finite input; it is
monotone (non-decreasing) in solar radiation whenever humidity ≤ 100 and the
temperature is above −237.3 °C; and monotone in temperature on temperatures in
(−237.3, 3860] when additionally wind and solar radiation are nonnegative. -/
theorem claim6_et_nonneg_and_monotone :
    (∀ (t h w s : ℝ) (ct : String), 0 ≤ calculateET t h w s ct) ∧
    (∀ (t h w s1 s2 : ℝ) (ct : String),
      h ≤ 100 → (-237.3 : ℝ) < t → s1 ≤ s2 →
      calculateET t h w s1 ct ≤ calculateET t h w s2 ct) ∧
    (∀ (t1 t2 h w s : ℝ) (ct : String),
      h ≤ 100 → 0 ≤ w → 0 ≤ s → (-237.3 : ℝ) < t1 → t1 ≤ t2 → t2 ≤ 3860 →
      calculateET t1 h w s ct ≤ calculateET t2 h w s ct) := by
  refine ⟨?_, ?_, ?_⟩
  · intro t h w s ct
    simp only [calculateET]
    exact le_max_left _ _
  · intro t h w s1 s2 ct hh ht hs
    simp only [calculateET]
    have hden : (0 : ℝ) < t + 237.3 := by linarith
    have hexp := Real.exp_pos (17.27 * t / (237.3 + t))
    have hvpd : 0 ≤ (1 - h / 100) * 0.611 * Real.exp (17.27 * t / (237.3 + t)) :=
      mul_nonneg (mul_nonneg (by linarith) (by norm_num)) (le_of_lt hexp)
    refine max_le_max le_rfl ?_
    have hnum : 0.408 * s1 * ((1 - h / 100) * 0.611 *
          Real.exp (17.27 * t / (237.3 + t))) +
        0.063 * w * ((1 - h / 100) * 0.611 * Real.exp (17.27 * t / (237.3 + t))) ≤
        0.408 * s2 * ((1 - h / 100) * 0.611 *
          Real.exp (17.27 * t / (237.3 + t))) +
        0.063 * w * ((1 - h / 100) * 0.611 * Real.exp (17.27 * t / (237.3 + t))) := by
      nlinarith [hvpd, hs]
    have key := (div_le_div_right hden).mpr hnum
    nlinarith [key]
  · intro t1 t2 h w s ct hh hw hs ht1 ht12 ht2
    simp only [calculateET]
    have hd1 : (0 : ℝ) < t1 + 237.3 := by linarith
    have hd2 : (0 : ℝ) < t2 + 237.3 := by linarith
    have hd1' : (0 : ℝ) < 237.3 + t1 := by linarith
    have hd2' : (0 : ℝ) < 237.3 + t2 := by linarith
    have he1 := Real.exp_pos (17.27 * t1 / (237.3 + t1))
    have he2 := Real.exp_pos (17.27 * t2 / (237.3 + t2))
    have hdelta : 17.27 * t2 / (237.3 + t2) - 17.27 * t1 / (237.3 + t1)
        = 17.27 * 237.3 * (t2 - t1) / ((237.3 + t1) * (237.3 + t2)) := by
      field_simp
      ring
    have hge := Real.add_one_le_exp
      (17.27 * t2 / (237.3 + t2) - 17.27 * t1 / (237.3 + t1))
    have hsplit : Real.exp (17.27 * t2 / (237.3 + t2))
        = Real.exp (17.27 * t1 / (237.3 + t1)) *
          Real.exp (17.27 * t2 / (237.3 + t2) - 17.27 * t1 / (237.3 + t1)) := by
      rw [← Real.exp_add]
      congr 1
      ring
    have h2 : (t2 + 237.3) ≤
        (1 + (17.27 * t2 / (237.3 + t2) - 17.27 * t1 / (237.3 + t1))) *
          (t1 + 237.3) := by
      rw [hdelta, ← sub_nonneg]
      have expand : (1 + 17.27 * 237.3 * (t2 - t1) / ((237.3 + t1) * (237.3 + t2))) *
            (t1 + 237.3) - (t2 + 237.3)
          = 17.27 * 237.3 * (t2 - t1) / (237.3 + t2) - (t2 - t1) := by
        field_simp
        ring
      rw [expand, sub_nonneg, le_div_iff hd2']
      nlinarith [ht12, ht2]
    have key : Real.exp (17.27 * t1 / (237.3 + t1)) * (t2 + 237.3)
        ≤ Real.exp (17.27 * t2 / (237.3 + t2)) * (t1 + 237.3) := by
      rw [hsplit]
      calc Real.exp (17.27 * t1 / (237.3 + t1)) * (t2 + 237.3)
          ≤ Real.exp (17.27 * t1 / (237.3 + t1)) *
            ((1 + (17.27 * t2 / (237.3 + t2) - 17.27 * t1 / (237.3 + t1))) *
              (t1 + 237.3)) :=
            mul_le_mul_of_nonneg_left h2 (le_of_lt he1)
        _ = (Real.exp (17.27 * t1 / (237.3 + t1)) *
            (1 + (17.27 * t2 / (237.3 + t2) - 17.27 * t1 / (237.3 + t1)))) *
              (t1 + 237.3) := by ring
        _ ≤ (Real.exp (17.27 * t1 / (237.3 + t1)) *
            Real.exp (17.27 * t2 / (237.3 + t2) - 17.27 * t1 / (237.3 + t1))) *
              (t1 + 237.3) := by
            refine mul_le_mul_of_nonneg_right
              (mul_le_mul_of_nonneg_left (by linarith [hge]) (le_of_lt he1))
              (le_of_lt hd1)
    have hdiv : Real.exp (17.27 * t1 / (237.3 + t1)) / (t1 + 237.3)
        ≤ Real.exp (17.27 * t2 / (237.3 + t2)) / (t2 + 237.3) := by
      rw [div_le_div_iff hd1 hd2]
      exact key
    refine max_le_max le_rfl ?_
    have hform1 : (0.408 * s * ((1 - h / 100) * 0.611 *
          Real.exp (17.27 * t1 / (237.3 + t1))) +
        0.063 * w * ((1 - h / 100) * 0.611 *
          Real.exp (17.27 * t1 / (237.3 + t1)))) / (t1 + 237.3) * 0.8 * 24
        = ((0.408 * s + 0.063 * w) * ((1 - h / 100) * 0.611)) *
          (Real.exp (17.27 * t1 / (237.3 + t1)) / (t1 + 237.3)) * 19.2 := by
      ring
    have hform2 : (0.408 * s * ((1 - h / 100) * 0.611 *
          Real.exp (17.27 * t2 / (237.3 + t2))) +
        0.063 * w * ((1 - h / 100) * 0.611 *
          Real.exp (17.27 * t2 / (237.3 + t2)))) / (t2 + 237.3) * 0.8 * 24
        = ((0.408 * s + 0.063 * w) * ((1 - h / 100) * 0.611)) *
          (Real.exp (17.27 * t2 / (237.3 + t2)) / (t2 + 237.3)) * 19.2 := by
      ring
    rw [hform1, hform2]
    have hF : 0 ≤ (0.408 * s + 0.063 * w) * ((1 - h / 100) * 0.611) :=
      mul_nonneg (by linarith) (mul_nonneg (by linarith) (by norm_num))
    have hstep := mul_le_mul_of_nonneg_left hdiv hF
    exact mul_le_mul_of_nonneg_right hstep (by norm_num)

/-- Witness for C6 (amended): concrete weather points for each part. -/
theorem claim6_et_nonneg_and_monotone_witness :
    (0 ≤ calculateET 28 65 8 500 "Wheat") ∧
    calculateET 28 65 8 500 "Wheat" ≤ calculateET 28 65 8 600 "Wheat" ∧
    calculateET 20 65 8 500 "Wheat" ≤ calculateET 30 65 8 500 "Wheat" :=
  ⟨claim6_et_nonneg_and_monotone.1 28 65 8 500 "Wheat",
    claim6_et_nonneg_and_monotone.2.1 28 65 8 500 600 "Wheat" (by norm_num)
      (by norm_num) (by norm_num),
    claim6_et_nonneg_and_monotone.2.2 20 30 65 8 500 "Wheat" (by norm_num)
      (by norm_num) (by norm_num) (by norm_num) (by norm_num) (by norm_num)⟩

end Irrig
